/-
Verification of the open-balena-builder service against its natural-language
specification.  The definitions below are a shallow embedding of the
TypeScript sources: the build endpoint of src/unnamed/part_001 and the delta
endpoint of src/src/index.ts.  Pure functions of the source become Lean
functions; the stateful request handlers become explicit state-passing
interpreters over a small filesystem/response model; external collaborators
(registry, metadata API, spawned processes) appear as oracle inputs.
-/
import Mathlib

namespace OpenBalenaBuilder

/-! ### Small string helpers shared by several embeddings -/

/-- Test whether the pattern occurs as a contiguous subsequence of the text,
mirroring the JavaScript `String.includes` method used by the stream
transformer. -/
def seqOccurs (pat : List Char) : List Char → Bool
  | [] => pat.isEmpty
  | c :: cs => pat.isPrefixOf (c :: cs) || seqOccurs pat cs

/-- JavaScript `a.includes(b)` on strings. -/
def strIncludes (s pat : String) : Bool :=
  seqOccurs pat.data s.data

/-- JavaScript falsiness of an optional query/header value: absent values and
the empty string are falsy, every other string is truthy. -/
def jsFalsy : Option String → Bool
  | none => true
  | some s => s = ""

/-! ### Delta Planner (generateDeltas, src/unnamed/part_001 lines 179-219) -/

/-- One row of the image metadata fetched for a release, as assembled by
`getImages`: storage location, content hash and owning service id. -/
structure ReleaseImage where
  imageLocation : String
  contentHash : String
  serviceId : Nat
deriving DecidableEq, Repr

/-- A source/destination pair for which a delta image should be produced. -/
structure DeltaJob where
  src : String
  dest : String
deriving DecidableEq, Repr

/-- The predicate passed to `oldImages.find` inside `generateDeltas`: same
service, different image location and different content hash. -/
def deltaPred (newImage oldImage : ReleaseImage) : Bool :=
  (oldImage.serviceId == newImage.serviceId) &&
  (oldImage.imageLocation != newImage.imageLocation) &&
  (oldImage.contentHash != newImage.contentHash)

/-- Embedding of `generateDeltas` from src/unnamed/part_001: the JavaScript
`forEach` with `push` becomes a left fold that appends one job whenever
`find` succeeds on the old-release list. -/
def generateDeltas (oldImages newImages : List ReleaseImage) : List DeltaJob :=
  newImages.foldl
    (fun deltas newImage =>
      match oldImages.find? (fun oldImage => deltaPred newImage oldImage) with
      | some m => deltas ++ [{ src := m.imageLocation, dest := newImage.imageLocation }]
      | none => deltas)
    []

/-- The per-image decision of the planner, used to state the specification:
the job emitted for one new-release image, when any. -/
def emitDelta (oldImages : List ReleaseImage) (newImage : ReleaseImage) :
    Option DeltaJob :=
  (oldImages.find? (fun oldImage => deltaPred newImage oldImage)).map
    (fun m => { src := m.imageLocation, dest := newImage.imageLocation })

theorem generateDeltas_foldl_eq (oldImages : List ReleaseImage) :
    ∀ (l : List ReleaseImage) (acc : List DeltaJob),
      l.foldl
        (fun deltas newImage =>
          match oldImages.find? (fun oldImage => deltaPred newImage oldImage) with
          | some m => deltas ++ [{ src := m.imageLocation, dest := newImage.imageLocation }]
          | none => deltas)
        acc
      = acc ++ l.filterMap (emitDelta oldImages) := by
  intro l
  induction l with
  | nil => intro acc; simp
  | cons n rest ih =>
    intro acc
    simp only [List.foldl_cons, List.filterMap_cons]
    cases h : oldImages.find? (fun oldImage => deltaPred n oldImage) with
    | none => simp [ih, emitDelta, h]
    | some m => simp [ih, emitDelta, h]

/-- C1: the Delta Planner emits a job for a new-list image exactly when an
old-list image with the same serviceId exists whose imageLocation and
contentHash both differ; jobs follow the new-release list order (the output
is a filterMap over the new list); and on the concrete example from the
specification exactly one job is produced, for service 2. -/
theorem generateDeltas_characterization :
    (∀ oldImages newImages : List ReleaseImage,
       generateDeltas oldImages newImages
         = newImages.filterMap (emitDelta oldImages)) ∧
    (∀ (oldImages : List ReleaseImage) (newImage : ReleaseImage),
       (emitDelta oldImages newImage).isSome
         ↔ ∃ o ∈ oldImages,
             o.serviceId = newImage.serviceId ∧
             o.imageLocation ≠ newImage.imageLocation ∧
             o.contentHash ≠ newImage.contentHash) ∧
    generateDeltas
        [⟨"a", "h1", 1⟩, ⟨"b", "h2", 2⟩]
        [⟨"a2", "h1", 1⟩, ⟨"b2", "h3", 2⟩]
      = [⟨"b", "b2"⟩] := by
  refine ⟨?_, ?_, ?_⟩
  · intro oldImages newImages
    simpa using generateDeltas_foldl_eq oldImages newImages []
  · intro oldImages newImage
    unfold emitDelta
    cases h : oldImages.find? (fun oldImage => deltaPred newImage oldImage) with
    | none =>
      simp only [Option.map_none', Option.isSome_none]
      constructor
      · intro hFalse
        exact absurd hFalse Bool.false_ne_true
      · rintro ⟨o, ho, hs, hl, hh⟩
        have hnone := List.find?_eq_none.mp h o ho
        simp only [deltaPred, Bool.and_eq_true, beq_iff_eq, bne_iff_ne,
          not_and] at hnone
        exact ((hnone ⟨hs, hl⟩) hh).elim
    | some m =>
      simp only [Option.map_some', Option.isSome_some, true_iff]
      have hm := List.find?_some h
      have hmem := List.mem_of_find?_eq_some h
      simp only [deltaPred, Bool.and_eq_true, beq_iff_eq, bne_iff_ne] at hm
      exact ⟨m, hmem, hm.1.1, hm.1.2, hm.2⟩
  · decide

/-- Witness for C1: the characterization applied to the specification example. -/
theorem generateDeltas_characterization_witness :
    generateDeltas
        [⟨"a", "h1", 1⟩, ⟨"b", "h2", 2⟩]
        [⟨"a2", "h1", 1⟩, ⟨"b2", "h3", 2⟩]
      = [(⟨"a2", "h1", 1⟩ : ReleaseImage), ⟨"b2", "h3", 2⟩].filterMap
          (emitDelta [⟨"a", "h1", 1⟩, ⟨"b", "h2", 2⟩]) :=
  generateDeltas_characterization.1 _ _

/-! ### Lock wait loop (src/src/index.ts lines 281-288)

The delta endpoint polls `fs.existsSync(buildWorkdir)` once per second inside
a do/while loop bounded by `elapsedSecs < 60 * 20`.  The embedding receives
the boolean outcome of the existence probe at each whole second: `ex 0` is
the probe guarding entry to the loop, `ex n` (for `n ≥ 1`) the probe made
after `n` one-second sleeps.  The value returned is the number of seconds
slept before the handler proceeds to the registry existence check. -/

def lockWaitLoop (ex : Nat → Bool) (elapsed : Nat) : Nat :=
  if h : ex (elapsed + 1) = true ∧ elapsed + 1 < 1200 then
    lockWaitLoop ex (elapsed + 1)
  else
    elapsed + 1
termination_by 1200 - elapsed
decreasing_by omega

def lockWaitSecs (ex : Nat → Bool) : Nat :=
  if ex 0 = true then lockWaitLoop ex 0 else 0

theorem lockWaitLoop_of_all (ex : Nat → Bool) (hex : ∀ i, ex i = true) :
    ∀ (m n : Nat), n + m = 1200 → 1 ≤ m → lockWaitLoop ex n = 1200 := by
  intro m
  induction m with
  | zero => intro n _ h1; omega
  | succ m ih =>
    intro n hn _
    rw [lockWaitLoop]
    rcases Nat.eq_zero_or_pos m with hm | hm
    · have hn' : n + 1 = 1200 := by omega
      rw [dif_neg]
      · exact hn'
      · intro hc
        omega
    · rw [dif_pos ⟨hex _, by omega⟩]
      exact ih (n + 1) (by omega) (by omega)

theorem lockWaitLoop_stops (ex : Nat → Bool) (k : Nat) (hk : k < 1200)
    (hkex : ex k = false) (hpre : ∀ i, 1 ≤ i → i < k → ex i = true) :
    ∀ (d n : Nat), n + d = k → 1 ≤ d → lockWaitLoop ex n = k := by
  intro d
  induction d with
  | zero => intro n _ h1; omega
  | succ d ih =>
    intro n hn _
    rw [lockWaitLoop]
    rcases Nat.eq_zero_or_pos d with hd | hd
    · have hn' : n + 1 = k := by omega
      rw [dif_neg]
      · exact hn'
      · intro hc
        rw [hn', hkex] at hc
        exact absurd hc.1 Bool.false_ne_true
    · rw [dif_pos ⟨hpre (n + 1) (by omega) (by omega), by omega⟩]
      exact ih (n + 1) (by omega) (by omega)

/-- C3: the LockWait phase polls the lock directory once per second; when the
directory never disappears it stops waiting after exactly 1200 seconds
(the 20-minute ceiling), neither earlier nor later; when the directory
disappears at an earlier poll, waiting stops at that poll; and when the
directory is absent at the initial probe no waiting happens at all. -/
theorem lockWait_ceiling :
    (∀ ex : Nat → Bool, (∀ i, ex i = true) → lockWaitSecs ex = 1200) ∧
    (∀ (ex : Nat → Bool) (k : Nat), ex 0 = true → 1 ≤ k → k < 1200 →
       (∀ i, 1 ≤ i → i < k → ex i = true) → ex k = false →
       lockWaitSecs ex = k) ∧
    (∀ ex : Nat → Bool, ex 0 = false → lockWaitSecs ex = 0) := by
  refine ⟨?_, ?_, ?_⟩
  · intro ex hex
    unfold lockWaitSecs
    rw [if_pos (hex 0)]
    exact lockWaitLoop_of_all ex hex 1200 0 (by omega) (by omega)
  · intro ex k h0 h1 hklt hpre hkex
    unfold lockWaitSecs
    rw [if_pos h0]
    exact lockWaitLoop_stops ex k hklt hkex hpre k 0 (by omega) h1
  · intro ex h0
    unfold lockWaitSecs
    rw [if_neg]
    rw [h0]
    exact Bool.false_ne_true

/-- Witness for C3: a lock that never disappears makes the handler wait the
full 1200 seconds, a lock that disappears at the third poll makes it wait
3 seconds, and an absent lock is not waited for. -/
theorem lockWait_ceiling_witness :
    lockWaitSecs (fun _ => true) = 1200 ∧
    lockWaitSecs (fun i => decide (i < 3)) = 3 ∧
    lockWaitSecs (fun _ => false) = 0 :=
  ⟨lockWait_ceiling.1 _ (fun _ => rfl),
   lockWait_ceiling.2.1 _ 3 (by decide) (by decide) (by decide)
     (fun i _ h2 => decide_eq_true h2) (by decide),
   lockWait_ceiling.2.2 _ rfl⟩

/-! ### Builder selection (src/unnamed/part_001 lines 264-290) -/

def amdFamily : List String := ["amd64", "i386", "i386-nlp"]

def armFamily : List String := ["aarch64", "armv7hf", "rpi"]

/-- Embedding of the builder-selection block of the build endpoint: returns
the DOCKER_HOST chosen for the build together with the value of the
`emulated` variable after the block ran (the block reassigns it to the
string true when no native builder matches the architecture family). -/
def selectBuilder (arch : String) (dockerHostAmd64 dockerHostArm64 : String)
    (emulated : Option String) : String × Option String :=
  if amdFamily.contains arch && dockerHostAmd64 != "" then
    (dockerHostAmd64, emulated)
  else if armFamily.contains arch && dockerHostArm64 != "" then
    (dockerHostArm64, emulated)
  else if dockerHostAmd64 != "" then
    (dockerHostAmd64, some "true")
  else
    (dockerHostArm64, some "true")

/-! ### Deploy command assembly (src/unnamed/part_001 lines 293-307 and the
empty-parameter filter of exec, lines 98-99) -/

/-- JavaScript template-literal interpolation of an optional value: an absent
value renders as the string undefined. -/
def jsTemplate : Option String → String
  | some s => s
  | none => "undefined"

/-- The ternary producing the emulated flag entry of the deploy command. -/
def emulatedFlag (emulated : Option String) : String :=
  if emulated == some "true" then "--emulated" else ""

/-- The ternary producing the nocache flag entry of the deploy command. -/
def nocacheFlag (nocache : Option String) : String :=
  if nocache == some "true" then "--nocache" else ""

/-- The ternary producing the dockerfile flag entry of the deploy command:
the flag is suppressed only when dockerfilePath is present and equal to the
empty string, because the comparison against the empty string is true for an
absent value. -/
def dockerfileFlag (dockerfilePath : Option String) : String :=
  if dockerfilePath != some "" then
    "--dockerfile=" ++ jsTemplate dockerfilePath
  else
    ""

/-- The literal command vector handed to exec by the build endpoint. -/
def rawDeployCmd (slug : String) (emulated nocache dockerfilePath : Option String) :
    List String :=
  ["/usr/local/bin/balena", "deploy", slug, "--build", "--draft",
   emulatedFlag emulated, nocacheFlag nocache, dockerfileFlag dockerfilePath]

/-- The empty-parameter filter applied by exec before spawning. -/
def execFilterEmpty (cmd : List String) : List String :=
  cmd.filter (fun x => decide (0 < x.length))

/-- The deploy command vector as actually spawned. -/
def deployCmd (slug : String) (emulated nocache dockerfilePath : Option String) :
    List String :=
  execFilterEmpty (rawDeployCmd slug emulated nocache dockerfilePath)

/-- The deploy command without its dockerfile entry, used to state how the
dockerfile flag varies with the query parameter. -/
def deployCmdBase (slug : String) (emulated nocache : Option String) : List String :=
  execFilterEmpty ["/usr/local/bin/balena", "deploy", slug, "--build", "--draft",
    emulatedFlag emulated, nocacheFlag nocache]

theorem execFilterEmpty_append (l1 l2 : List String) :
    execFilterEmpty (l1 ++ l2) = execFilterEmpty l1 ++ execFilterEmpty l2 := by
  simp [execFilterEmpty]

/-- C10: when dockerfilePath is absent the spawned command vector contains
the literal entry dockerfile=undefined (prefixed by the flag name), because
only empty strings are dropped by the exec filter; the flag is omitted
exactly when dockerfilePath is present and empty; a nonempty value is passed
through verbatim. -/
theorem deployCmd_dockerfile_flag :
    ∀ (slug : String) (emulated nocache : Option String),
      deployCmd slug emulated nocache none
          = deployCmdBase slug emulated nocache ++ ["--dockerfile=undefined"] ∧
      deployCmd slug emulated nocache (some "")
          = deployCmdBase slug emulated nocache ∧
      ∀ s : String, s ≠ "" →
        deployCmd slug emulated nocache (some s)
            = deployCmdBase slug emulated nocache ++ ["--dockerfile=" ++ s] := by
  intro slug emulated nocache
  have hsplit : ∀ dockerfilePath,
      deployCmd slug emulated nocache dockerfilePath
        = deployCmdBase slug emulated nocache
            ++ execFilterEmpty [dockerfileFlag dockerfilePath] := by
    intro dockerfilePath
    have : rawDeployCmd slug emulated nocache dockerfilePath
        = ["/usr/local/bin/balena", "deploy", slug, "--build", "--draft",
           emulatedFlag emulated, nocacheFlag nocache]
            ++ [dockerfileFlag dockerfilePath] := rfl
    rw [deployCmd, this, execFilterEmpty_append]
    rfl
  refine ⟨?_, ?_, ?_⟩
  · rw [hsplit]
    rfl
  · rw [hsplit]
    simp [dockerfileFlag, execFilterEmpty]
  · intro s hs
    rw [hsplit]
    have hflag : dockerfileFlag (some s) = "--dockerfile=" ++ s := by
      rw [dockerfileFlag, if_pos]
      · rfl
      · simp [hs]
    rw [hflag]
    have hlen : 0 < ("--dockerfile=" ++ s).length := by
      rw [String.length_append]
      have h13 : "--dockerfile=".length = 13 := rfl
      omega
    have hfil : execFilterEmpty ["--dockerfile=" ++ s] = ["--dockerfile=" ++ s] := by
      simp only [execFilterEmpty, List.filter_cons, List.filter_nil]
      rw [if_pos (decide_eq_true hlen)]
    rw [hfil]

/-- Witness for C10: concrete command vectors for an absent, empty and
nonempty dockerfilePath parameter. -/
theorem deployCmd_dockerfile_flag_witness :
    deployCmd "myapp" none none none
        = deployCmdBase "myapp" none none ++ ["--dockerfile=undefined"] ∧
    deployCmd "myapp" none none (some "")
        = deployCmdBase "myapp" none none ∧
    deployCmd "myapp" none none (some "sub/Dockerfile")
        = deployCmdBase "myapp" none none ++ ["--dockerfile=sub/Dockerfile"] :=
  ⟨(deployCmd_dockerfile_flag "myapp" none none).1,
   (deployCmd_dockerfile_flag "myapp" none none).2.1,
   (deployCmd_dockerfile_flag "myapp" none none).2.2 "sub/Dockerfile" (by decide)⟩

/-- C5: with architecture aarch64 and an arm64 endpoint configured the native
arm64 endpoint is chosen and the emulated setting is left untouched (so a
request that did not ask for emulation carries no emulated flag); with
architecture aarch64 and no arm64 endpoint but an amd64 endpoint present the
build is forced emulated on the amd64 endpoint; with architecture amd64 and
only an arm64 endpoint configured the build is forced emulated on the arm64
endpoint. -/
theorem selectBuilder_cases :
    (∀ (dockerHostAmd64 dockerHostArm64 : String) (emulated : Option String),
       dockerHostArm64 ≠ "" →
         selectBuilder "aarch64" dockerHostAmd64 dockerHostArm64 emulated
             = (dockerHostArm64, emulated) ∧
         emulatedFlag (selectBuilder "aarch64" dockerHostAmd64 dockerHostArm64 none).2
             = "") ∧
    (∀ (dockerHostAmd64 : String) (emulated : Option String),
       dockerHostAmd64 ≠ "" →
         selectBuilder "aarch64" dockerHostAmd64 "" emulated
             = (dockerHostAmd64, some "true")) ∧
    (∀ (dockerHostArm64 : String) (emulated : Option String),
       dockerHostArm64 ≠ "" →
         selectBuilder "amd64" "" dockerHostArm64 emulated
             = (dockerHostArm64, some "true")) := by
  refine ⟨?_, ?_, ?_⟩
  · intro a b emulated hb
    have hsel : ∀ e : Option String, selectBuilder "aarch64" a b e = (b, e) := by
      intro e
      unfold selectBuilder
      rw [if_neg, if_pos]
      · simp [armFamily, bne_iff_ne, hb]
      · simp [amdFamily]
    exact ⟨hsel emulated, by rw [hsel none]; rfl⟩
  · intro a emulated ha
    unfold selectBuilder
    rw [if_neg, if_neg, if_pos]
    · simp [bne_iff_ne, ha]
    · simp [armFamily]
    · simp [amdFamily]
  · intro b emulated hb
    have harm : armFamily.contains "amd64" = false := by decide
    unfold selectBuilder
    rw [if_neg (by decide),
      if_neg (by
        intro hc
        rw [Bool.and_eq_true, harm] at hc
        exact absurd hc.1 Bool.false_ne_true),
      if_neg (by decide)]

/-- Witness for C5: the three selection scenarios at concrete endpoints. -/
theorem selectBuilder_cases_witness :
    (selectBuilder "aarch64" "tcp://amd" "tcp://arm" none = ("tcp://arm", none) ∧
       emulatedFlag (selectBuilder "aarch64" "tcp://amd" "tcp://arm" none).2 = "") ∧
    selectBuilder "aarch64" "tcp://amd" "" none = ("tcp://amd", some "true") ∧
    selectBuilder "amd64" "" "tcp://arm" none = ("tcp://arm", some "true") :=
  ⟨selectBuilder_cases.1 "tcp://amd" "tcp://arm" none (by decide),
   selectBuilder_cases.2.1 "tcp://amd" none (by decide),
   selectBuilder_cases.2.2 "tcp://arm" none (by decide)⟩

/-! ### Image reference parsing (src/src/index.ts lines 241-252)

The delta endpoint validates src and dest against the pattern
starting with a lazy wildcard, then a slash, the letter v, a run of decimal
digits (the image version), a slash, and a run of lowercase hex digits (the
image base) extending to the end of the string.  The lazy wildcard makes the
match start at the earliest slash from which the rest of the pattern reaches
the end; inside the pattern no backtracking can occur because a slash is
neither a digit nor a hex digit. -/

def isHexLower (c : Char) : Bool :=
  c.isDigit || ('a' ≤ c && c ≤ 'f')

/-- Attempt the fixed part of the pattern at a position directly after a
slash: the letter v, one or more digits, a slash, one or more lowercase hex
digits reaching the end. -/
def refTailMatch : List Char → Option (String × String)
  | 'v' :: rest =>
    let ver := rest.takeWhile Char.isDigit
    let after := rest.dropWhile Char.isDigit
    if ver.isEmpty then none
    else
      match after with
      | '/' :: base =>
        if base.isEmpty then none
        else if base.all isHexLower then some (String.mk ver, String.mk base)
        else none
      | _ => none
  | _ => none

/-- Scan for the earliest slash at which the tail pattern matches, the way
the lazy wildcard of the source regular expression does; the wildcard cannot
cross a newline. -/
def refScan : List Char → Option (String × String)
  | [] => none
  | c :: cs =>
    if c = '\n' then none
    else
      match if c = '/' then refTailMatch cs else none with
      | some r => some r
      | none => refScan cs

/-- Result of the version/base extraction applied to src and dest. -/
def parseImageRef (s : String) : Option (String × String) :=
  refScan s.data

/-! ### Delta image naming (src/src/index.ts lines 254-258) -/

def deltaTagOf (srcImgBase : String) : String :=
  "delta-" ++ srcImgBase.take 16

def deltaImgBaseOf (destImgBase srcImgBase : String) : String :=
  destImgBase ++ ":" ++ deltaTagOf srcImgBase

def deltaImgPathOf (registryHost destImgVer destImgBase srcImgBase : String) : String :=
  registryHost ++ "/" ++ ("v" ++ destImgVer ++ "/" ++ deltaImgBaseOf destImgBase srcImgBase)

/-! ### Delta-Build Orchestrator (src/src/index.ts lines 222-398)

The handler is embedded as an interpreter over a two-directory filesystem
view: the temporary workdir (named by a fresh uuid) and the build workdir
(the DeltaLock, named by the delta image identity).  External effects are
recorded as actions; the registry existence probe is an oracle input; a
fault can be injected at each phase boundary of the specification state
machine, which models an exception thrown at that point and caught by the
surrounding catch block. -/

inductive DAction where
  | dockerLogin
  | manifestInspect (img : String)
  | mkdirBuild
  | buildDiff
  | buildDelta
  | pushDelta (img : String)
  | rmiImages
deriving DecidableEq, Repr

inductive Wd where
  | tmp
  | build
deriving DecidableEq, Repr

inductive DResp where
  | ok (name : String)
  | fail (message : String)
deriving DecidableEq, Repr

inductive DeltaBoundary where
  | received
  | lockWait
  | existence
  | build
  | push
deriving DecidableEq, Repr

structure DeltaSt where
  tmpPresent : Bool
  buildPresent : Bool
  workdir : Option Wd
  actions : List DAction
deriving DecidableEq, Repr

structure DeltaResult where
  status : Nat
  contentType : String
  resp : DResp
  tmpPresent : Bool
  buildPresent : Bool
  actions : List DAction
deriving DecidableEq, Repr

/-- The unconditional cleanup at the end of the handler: remove the current
workdir when it is set and still present. -/
def deltaCleanup (st : DeltaSt) : DeltaSt :=
  match st.workdir with
  | some Wd.tmp => if st.tmpPresent then { st with tmpPresent := false } else st
  | some Wd.build => if st.buildPresent then { st with buildPresent := false } else st
  | none => st

/-- Cleanup followed by the final res.send: no status is ever set on this
path, so Express serves 200, and the content type is set to text/html. -/
def deltaFinish (st : DeltaSt) (resp : DResp) : DeltaResult :=
  let st2 := deltaCleanup st
  { status := 200, contentType := "text/html", resp := resp,
    tmpPresent := st2.tmpPresent, buildPresent := st2.buildPresent,
    actions := st2.actions }

def injectedFaultMsg : String := "injected fault"

def runDelta (registryHost : String) (src dest : String) (auth : Option String)
    (existsInRegistry : Bool) (fault : Option DeltaBoundary) : DeltaResult :=
  let st0 : DeltaSt :=
    { tmpPresent := false, buildPresent := false, workdir := none, actions := [] }
  match parseImageRef src, parseImageRef dest with
  | none, _ => deltaFinish st0 (.fail "src and dest url params must be provided")
  | some _, none => deltaFinish st0 (.fail "src and dest url params must be provided")
  | some (srcImgVer, srcImgBase), some (destImgVer, destImgBase) =>
    if jsFalsy auth then
      deltaFinish st0 (.fail "authorization header must be provided")
    else if srcImgVer ≠ destImgVer then
      deltaFinish st0 (.fail "src and dest image versions must match")
    else
      let deltaImgPath := deltaImgPathOf registryHost destImgVer destImgBase srcImgBase
      let st1 : DeltaSt :=
        { tmpPresent := true, buildPresent := false, workdir := some Wd.tmp,
          actions := [DAction.dockerLogin] }
      if fault == some DeltaBoundary.received then
        deltaFinish st1 (.fail injectedFaultMsg)
      else if fault == some DeltaBoundary.lockWait then
        deltaFinish st1 (.fail injectedFaultMsg)
      else
        let st2 : DeltaSt :=
          { st1 with actions := st1.actions ++ [DAction.manifestInspect deltaImgPath] }
        if fault == some DeltaBoundary.existence then
          deltaFinish st2 (.fail injectedFaultMsg)
        else if existsInRegistry then
          deltaFinish st2 (.ok deltaImgPath)
        else
          let st3 : DeltaSt :=
            { tmpPresent := false, buildPresent := true, workdir := some Wd.build,
              actions := st2.actions
                ++ [DAction.mkdirBuild, DAction.buildDiff, DAction.buildDelta] }
          if fault == some DeltaBoundary.build then
            deltaFinish st3 (.fail injectedFaultMsg)
          else
            let st4 : DeltaSt :=
              { st3 with actions := st3.actions ++ [DAction.pushDelta deltaImgPath] }
            if fault == some DeltaBoundary.push then
              deltaFinish st4 (.fail injectedFaultMsg)
            else
              let st5 : DeltaSt :=
                { st4 with actions := st4.actions ++ [DAction.rmiImages] }
              deltaFinish st5 (.ok deltaImgPath)

/-- C2: whichever exit path the delta handler takes, success or a fault
injected at any phase boundary, neither the temporary workdir nor the
DeltaLock build directory created by the request is still present when the
request ends. -/
theorem runDelta_dirs_removed (registryHost src dest : String)
    (auth : Option String) (existsInRegistry : Bool)
    (fault : Option DeltaBoundary) :
    (runDelta registryHost src dest auth existsInRegistry fault).tmpPresent = false ∧
    (runDelta registryHost src dest auth existsInRegistry fault).buildPresent = false := by
  unfold runDelta
  repeat' split
  all_goals simp [deltaFinish, deltaCleanup]

/-- C4: when the delta image is already present in the registry, the handler
performs only the docker login and the manifest inspection, never creating
the lock directory, building or pushing, and answers success with the name
of the existing delta image. -/
theorem runDelta_exists_short_circuit (registryHost src dest : String)
    (auth : Option String) (ver srcBase destBase : String)
    (hsrc : parseImageRef src = some (ver, srcBase))
    (hdest : parseImageRef dest = some (ver, destBase))
    (hauth : jsFalsy auth = false) :
    runDelta registryHost src dest auth true none
      = { status := 200, contentType := "text/html",
          resp := .ok (deltaImgPathOf registryHost ver destBase srcBase),
          tmpPresent := false, buildPresent := false,
          actions := [DAction.dockerLogin,
            DAction.manifestInspect (deltaImgPathOf registryHost ver destBase srcBase)] } := by
  unfold runDelta
  rw [hsrc, hdest]
  simp [hauth, deltaFinish, deltaCleanup]

/-- Witness for C4: a concrete already-existing delta image is answered with
success and no build, push or lock actions. -/
theorem runDelta_exists_short_circuit_witness :
    runDelta "registry.ex" "registry.ex/v2/aabbccddeeff0011223344"
        "registry.ex/v2/ff00aa" (some "tok") true none
      = { status := 200, contentType := "text/html",
          resp := .ok (deltaImgPathOf "registry.ex" "2" "ff00aa" "aabbccddeeff0011223344"),
          tmpPresent := false, buildPresent := false,
          actions := [DAction.dockerLogin,
            DAction.manifestInspect
              (deltaImgPathOf "registry.ex" "2" "ff00aa" "aabbccddeeff0011223344")] } :=
  runDelta_exists_short_circuit "registry.ex" _ _ (some "tok") "2"
    "aabbccddeeff0011223344" "ff00aa" rfl rfl rfl

/-- C9: every response of the delta endpoint carries HTTP status 200 with
content type text/html; malformed references and injected build faults are
reported only through a failure body, never through the status code. -/
theorem runDelta_always_200 (registryHost src dest : String)
    (auth : Option String) (existsInRegistry : Bool)
    (fault : Option DeltaBoundary) :
    (runDelta registryHost src dest auth existsInRegistry fault).status = 200 ∧
    (runDelta registryHost src dest auth existsInRegistry fault).contentType
        = "text/html" ∧
    (parseImageRef src = none →
       (runDelta registryHost src dest auth existsInRegistry fault).resp
           = .fail "src and dest url params must be provided") ∧
    (∀ b, fault = some b → existsInRegistry = false →
       ∀ ver srcBase destBase,
         parseImageRef src = some (ver, srcBase) →
         parseImageRef dest = some (ver, destBase) →
         jsFalsy auth = false →
         (runDelta registryHost src dest auth existsInRegistry fault).resp
             = .fail injectedFaultMsg) := by
  refine ⟨?_, ?_, ?_, ?_⟩
  · unfold runDelta
    repeat' split
    all_goals simp [deltaFinish, deltaCleanup]
  · unfold runDelta
    repeat' split
    all_goals simp [deltaFinish, deltaCleanup]
  · intro hnone
    unfold runDelta
    rw [hnone]
    cases parseImageRef dest <;> rfl
  · intro b hb hex ver srcBase destBase hsrc hdest hauth
    subst hb
    subst hex
    unfold runDelta
    rw [hsrc, hdest]
    cases b <;> simp [hauth, deltaFinish, deltaCleanup, injectedFaultMsg]

/-- Witness for C9: a malformed src reference and an injected build fault
both surface as failure bodies under status 200. -/
theorem runDelta_always_200_witness :
    (runDelta "registry.ex" "nonsense" "registry.ex/v2/ff00aa" (some "tok")
        false none).status = 200 ∧
    (runDelta "registry.ex" "nonsense" "registry.ex/v2/ff00aa" (some "tok")
        false none).resp = .fail "src and dest url params must be provided" ∧
    (runDelta "registry.ex" "registry.ex/v2/aabb" "registry.ex/v2/ff00aa"
        (some "tok") false (some DeltaBoundary.build)).status = 200 ∧
    (runDelta "registry.ex" "registry.ex/v2/aabb" "registry.ex/v2/ff00aa"
        (some "tok") false (some DeltaBoundary.build)).resp
        = .fail injectedFaultMsg :=
  ⟨(runDelta_always_200 "registry.ex" "nonsense" "registry.ex/v2/ff00aa"
      (some "tok") false none).1,
   (runDelta_always_200 "registry.ex" "nonsense" "registry.ex/v2/ff00aa"
      (some "tok") false none).2.2.1 rfl,
   (runDelta_always_200 "registry.ex" "registry.ex/v2/aabb"
      "registry.ex/v2/ff00aa" (some "tok") false (some DeltaBoundary.build)).1,
   (runDelta_always_200 "registry.ex" "registry.ex/v2/aabb"
      "registry.ex/v2/ff00aa" (some "tok") false
      (some DeltaBoundary.build)).2.2.2 DeltaBoundary.build rfl rfl "2" "aabb"
      "ff00aa" rfl rfl rfl⟩

/-! ### Output sanitization and the release-success marker scan
(src/unnamed/part_001 lines 309-326)

Each stdout data chunk is split on carriage-return/newline combinations;
every line is stripped of non-printable characters and of one trailing
cursor-control remnant, trimmed, and matched against the release-success
marker; every match overwrites the captured commit. -/

def isPrintable (c : Char) : Bool :=
  ' ' ≤ c && c ≤ '~'

def stripNonPrintable (cs : List Char) : List Char :=
  cs.filter isPrintable

def escClass : List Char := ['K', 'A', 'H', 'm', 'l', 'h']

/-- Remove a trailing cursor-control remnant: an opening bracket, at most
three characters, and a final letter of the control class, anchored at the
end of the line; the earliest bracket from which such a match reaches the
end wins, as the source regular expression does. -/
def stripTrailingEscape (cs : List Char) : List Char :=
  let n := cs.length
  if 2 ≤ n ∧ escClass.contains (cs.getLastD ' ') then
    match (List.range n).find?
        (fun i => decide (n ≤ i + 5) && decide (i + 2 ≤ n) && (cs.getD i ' ' == '[')) with
    | some i => cs.take i
    | none => cs
  else cs

def trimAscii (cs : List Char) : List Char :=
  ((cs.dropWhile (fun c => c == ' ')).reverse.dropWhile (fun c => c == ' ')).reverse

def sanitizeLine (cs : List Char) : List Char :=
  trimAscii (stripTrailingEscape (stripNonPrintable cs))

def markerLit : List Char := "[Success] Release: ".data

/-- Attempt the marker pattern at one position: the literal marker text
followed by at least one lowercase hex digit; the capture is the maximal hex
run, as the greedy group of the source regular expression produces. -/
def markerTail (cs : List Char) : Option String :=
  if markerLit.isPrefixOf cs then
    let hex := (cs.drop markerLit.length).takeWhile isHexLower
    if hex.isEmpty then none else some (String.mk hex)
  else none

/-- Leftmost occurrence search for the marker pattern within one line. -/
def markerScan : List Char → Option String
  | [] => none
  | c :: cs =>
    match markerTail (c :: cs) with
    | some h => some h
    | none => markerScan cs

/-- Split a chunk on carriage-return/newline, newline, or carriage-return,
in that preference order. -/
def splitLinesAux : List Char → List Char → List (List Char)
  | [], acc => [acc.reverse]
  | '\r' :: '\n' :: rest, acc => acc.reverse :: splitLinesAux rest []
  | '\r' :: rest, acc => acc.reverse :: splitLinesAux rest []
  | '\n' :: rest, acc => acc.reverse :: splitLinesAux rest []
  | c :: rest, acc => splitLinesAux rest (c :: acc)

/-- The value of newCommit after all stdout chunks have been observed: each
matching line overwrites the previous capture, and the initial value is the
empty string. -/
def scanStdout (chunks : List String) : String :=
  chunks.foldl
    (fun acc chunk =>
      (splitLinesAux chunk.data []).foldl
        (fun acc2 line =>
          match markerScan (sanitizeLine line) with
          | some h => h
          | none => acc2)
        acc)
    ""

/-! ### Progress frames and the response event model
(src/unnamed/part_001 lines 26-89 and 221-427)

Response activity is recorded as an event list.  A sendBody event is an
effective res.send carrying the status line; a lateSend event is the
res.status(400).send attempted after the headers already went out, which can
no longer change the transmitted status line and emits no protocol frame; a
write event is one JSON protocol frame written to the stream. -/

structure Frame where
  message : String
  isError : Option Bool := none
  replace : Option Bool := none
deriving DecidableEq, Repr

/-- The stream transformer applied to every stdout/stderr chunk in
non-headless mode. -/
def transformFrame (chunk : String) : Frame :=
  { message := chunk,
    isError := some (strIncludes chunk "[Error]"),
    replace := some (strIncludes chunk "\x1b[2K\r" || !(strIncludes chunk "\n")) }

inductive REvent where
  | sendBody (status : Nat) (body : String)
  | lateSend (status : Nat) (body : String)
  | write (f : Frame)
  | endR
deriving DecidableEq, Repr

def spinnerGlyph (i : Nat) : Char :=
  "|/-\\".data.getD (i % 4) ' '

def clearFrame : Frame :=
  { message := "", replace := some true }

def spinFrame (msg : String) (i : Nat) : Frame :=
  { message := msg ++ " " ++ String.mk [spinnerGlyph i], replace := some true }

def spinDoneFrame (msg : String) : Frame :=
  { message := msg, replace := some false }

/-- The writes produced by the run loop ticks of one runSpinner block. -/
def spinTickEvents (msg : String) : Nat → Nat → List REvent
  | _, 0 => []
  | i, r + 1 =>
    REvent.write clearFrame :: REvent.write (spinFrame msg i)
      :: spinTickEvents msg (i + 1) r

/-- All writes of one runSpinner block: the ticks followed by the
unconditional cleanup that clears the line and writes the final message. -/
def runSpinnerEvents (msg : String) (startIdx ticks : Nat) : List REvent :=
  spinTickEvents msg startIdx ticks
    ++ [REvent.write clearFrame, REvent.write (spinDoneFrame msg)]

/-- The status line actually transmitted for an event sequence: the status
of an effective send when it opened the response, the implicit 200 when the
response was opened by a stream write. -/
def sentStatus : List REvent → Nat
  | REvent.sendBody s _ :: _ => s
  | _ => 200

/-! ### Build-Request Orchestrator (src/unnamed/part_001 lines 224-427) -/

inductive BAction where
  | balenaLogin
  | archQuery
  | deploy (cmd : List String)
  | deltaTokenFetch (registry : String)
  | deltaRequest (src dest : String)
  | finalizeRelease (commit : String)
deriving DecidableEq, Repr

structure BuildQuery where
  slug : Option String
  dockerfilePath : Option String
  nocache : Option String
  headless : Option String
  isdraft : Option String
  emulated : Option String
deriving DecidableEq, Repr

structure BuildCfg where
  dockerHostAmd64 : String
  dockerHostArm64 : String
deriving DecidableEq, Repr

/-- Oracle inputs standing for the external collaborators of one build
request: the architecture answered by the metadata API, the output and exit
code of the spawned deploy process, the image lists of the two releases, an
optional fault of the concurrent delta dispatch, the numbers of spinner
timer ticks observed, and the exit code of the finalize process. -/
structure BuildOracle where
  arch : String
  stdoutChunks : List String
  stderrChunks : List String
  exitCode : Nat
  oldImages : List ReleaseImage
  newImages : List ReleaseImage
  deltaFault : Option String
  deltaTicks : Nat
  finalizeTicks : Nat
  finalizeExit : Nat
deriving DecidableEq, Repr

structure BuildResult where
  events : List REvent
  caughtError : Option String
  errorAfterStream : Option Bool
  actions : List BAction
deriving DecidableEq, Repr

/-- The catch handler: nothing is sent when the headless response was
already returned; otherwise res.status(400).send is an effective error
response when no bytes have been written yet and an ineffective late send
when streaming has already begun. -/
def catchEvents (events : List REvent) (headlessReturned : Bool) (msg : String) :
    List REvent :=
  if headlessReturned then events
  else if events.isEmpty then events ++ [REvent.sendBody 400 msg]
  else events ++ [REvent.lateSend 400 msg]

/-- Whether the catch handler ran after response bytes had been sent;
nothing is recorded for a headless catch or a request without a fault. -/
def catchAfterStream (events : List REvent) (headlessReturned : Bool) : Option Bool :=
  if headlessReturned then none else some (!events.isEmpty)

/-- Result assembly for a faulting request: catch handler, workdir cleanup,
res.end. -/
def buildCaught (events : List REvent) (headlessReturned : Bool) (msg : String)
    (actions : List BAction) : BuildResult :=
  { events := catchEvents events headlessReturned msg ++ [REvent.endR],
    caughtError := some msg,
    errorAfterStream := catchAfterStream events headlessReturned,
    actions := actions }

/-- Result assembly for a successful request: workdir cleanup, res.end. -/
def buildDone (events : List REvent) (actions : List BAction) : BuildResult :=
  { events := events ++ [REvent.endR],
    caughtError := none,
    errorAfterStream := none,
    actions := actions }

def registryOf (s : String) : String :=
  (s.splitOn "/").head?.getD ""

/-- The actions of the concurrent delta dispatch, serialized in job order:
one scoped token fetch and one delta-service call per job. -/
def dispatchActions (deltas : List DeltaJob) : List BAction :=
  (deltas.map
    (fun d => [BAction.deltaTokenFetch (registryOf d.src),
      BAction.deltaRequest d.src d.dest])).flatten

/-- The frames piped through the stdout/stderr transformers in non-headless
mode; ordering between the two streams is a serialization. -/
def streamFrames (o : BuildOracle) : List REvent :=
  o.stdoutChunks.map (fun c => REvent.write (transformFrame c))
    ++ o.stderrChunks.map (fun c => REvent.write (transformFrame c))

def deltaSpinnerMsg : String := "[Delta] Creating image deltas..."

def finalizeSpinnerMsg : String := "[Release] Finalizing Release..."

def finalizedFrame : Frame := { message := "[Success] Release finalized!" }

/-- Interpreter for the build endpoint of src/unnamed/part_001: validation,
builder selection, deploy spawn, the headless split, the commit-marker
check, delta dispatch under a spinner, and the optional finalize phase. -/
def runBuild (q : BuildQuery) (auth : Option String) (cfg : BuildCfg)
    (o : BuildOracle) : BuildResult :=
  if jsFalsy q.slug then
    buildCaught [] false "app slug must be specified" []
  else if jsFalsy auth then
    buildCaught [] false "authorization header must be provided" []
  else if cfg.dockerHostAmd64 = "" ∧ cfg.dockerHostArm64 = "" then
    buildCaught [] false "no builder available" []
  else
    let sel := selectBuilder o.arch cfg.dockerHostAmd64 cfg.dockerHostArm64 q.emulated
    let cmd := deployCmd (q.slug.getD "") sel.2 q.nocache q.dockerfilePath
    let actions0 := [BAction.balenaLogin, BAction.archQuery, BAction.deploy cmd]
    let newCommit := scanStdout o.stdoutChunks
    let headlessReturned := !(q.headless == some "false")
    let events0 :=
      if q.headless == some "false" then streamFrames o
      else [REvent.sendBody 200 "Build started"]
    if newCommit = "" then
      buildCaught events0 headlessReturned "Build error" actions0
    else
      let deltas := generateDeltas o.oldImages o.newImages
      let actions1 := actions0 ++ dispatchActions deltas
      let events1 := events0 ++ runSpinnerEvents deltaSpinnerMsg 0 o.deltaTicks
      match o.deltaFault with
      | some m => buildCaught events1 headlessReturned m actions1
      | none =>
        if q.isdraft == some "false" then
          let events2 := events1 ++ runSpinnerEvents finalizeSpinnerMsg o.deltaTicks o.finalizeTicks
          let actions2 := actions1 ++ [BAction.finalizeRelease newCommit]
          if o.finalizeExit = 0 then
            buildDone (events2 ++ [REvent.write finalizedFrame]) actions2
          else
            buildCaught events2 headlessReturned "Failed to finalize release" actions2
        else
          buildDone events1 actions1

/-- C6: a build process that exits without the release-success marker having
been observed on stdout makes the request fail with the Build error fault,
whatever the process exit code was, zero included; neither the delta
dispatch nor the finalize phase runs. -/
theorem runBuild_fails_without_marker (q : BuildQuery) (auth : Option String)
    (cfg : BuildCfg) (o : BuildOracle)
    (hslug : jsFalsy q.slug = false)
    (hauth : jsFalsy auth = false)
    (hbuilder : ¬(cfg.dockerHostAmd64 = "" ∧ cfg.dockerHostArm64 = ""))
    (hscan : scanStdout o.stdoutChunks = "") :
    ∀ ec : Nat,
      (runBuild q auth cfg { o with exitCode := ec }).caughtError
          = some "Build error" ∧
      (runBuild q auth cfg { o with exitCode := ec }).actions
          = [BAction.balenaLogin, BAction.archQuery,
             BAction.deploy (deployCmd (q.slug.getD "")
               (selectBuilder o.arch cfg.dockerHostAmd64 cfg.dockerHostArm64
                 q.emulated).2 q.nocache q.dockerfilePath)] := by
  intro ec
  unfold runBuild
  simp [hslug, hauth, hbuilder, hscan, buildCaught]

/-- Witness for C6: a build whose stdout carries no marker fails with the
Build error fault although its exit code is zero. -/
theorem runBuild_fails_without_marker_witness :
    (runBuild
        { slug := some "app", dockerfilePath := none, nocache := none,
          headless := some "false", isdraft := none, emulated := none }
        (some "tok")
        { dockerHostAmd64 := "tcp://amd", dockerHostArm64 := "" }
        { arch := "amd64", stdoutChunks := ["hello\n"], stderrChunks := [],
          exitCode := 0, oldImages := [], newImages := [], deltaFault := none,
          deltaTicks := 0, finalizeTicks := 0, finalizeExit := 0 }).caughtError
      = some "Build error" :=
  (runBuild_fails_without_marker
    { slug := some "app", dockerfilePath := none, nocache := none,
      headless := some "false", isdraft := none, emulated := none }
    (some "tok")
    { dockerHostAmd64 := "tcp://amd", dockerHostArm64 := "" }
    { arch := "amd64", stdoutChunks := ["hello\n"], stderrChunks := [],
      exitCode := 0, oldImages := [], newImages := [], deltaFault := none,
      deltaTicks := 0, finalizeTicks := 0, finalizeExit := 0 }
    rfl rfl (by simp) (by decide) 0).1

/-! ### Error-reporting shape of the build endpoint -/

theorem sentStatus_append (l1 l2 : List REvent) (h1 : sentStatus l1 = 200)
    (h2 : sentStatus l2 = 200) : sentStatus (l1 ++ l2) = 200 := by
  cases l1 with
  | nil => simpa using h2
  | cons e es =>
    cases e with
    | sendBody s b => exact h1
    | lateSend s b => rfl
    | write f => rfl
    | endR => rfl

theorem sentStatus_streamFrames (o : BuildOracle) :
    sentStatus (streamFrames o) = 200 := by
  unfold streamFrames
  cases o.stdoutChunks with
  | nil =>
    cases o.stderrChunks with
    | nil => rfl
    | cons c cs => rfl
  | cons c cs => rfl

theorem sentStatus_spin (msg : String) (s t : Nat) :
    sentStatus (runSpinnerEvents msg s t) = 200 := by
  cases t with
  | zero => rfl
  | succ r => rfl

theorem buildCaught_shape (events : List REvent) (hr : Bool) (msg : String)
    (actions : List BAction) (hss : sentStatus events = 200) :
    ((buildCaught events hr msg actions).errorAfterStream = some false →
       (buildCaught events hr msg actions).events
         = [REvent.sendBody 400 msg, REvent.endR]) ∧
    ((buildCaught events hr msg actions).errorAfterStream = some true →
       (∃ pre, pre ≠ [] ∧
          (buildCaught events hr msg actions).events
            = pre ++ [REvent.lateSend 400 msg, REvent.endR]) ∧
       sentStatus (buildCaught events hr msg actions).events = 200) := by
  cases hr with
  | true =>
    constructor
    · intro hcontra
      simp [buildCaught, catchAfterStream] at hcontra
    · intro hcontra
      simp [buildCaught, catchAfterStream] at hcontra
  | false =>
    cases events with
    | nil =>
      constructor
      · intro _
        simp [buildCaught, catchEvents]
      · intro hcontra
        simp [buildCaught, catchAfterStream] at hcontra
    | cons e es =>
      constructor
      · intro hcontra
        simp [buildCaught, catchAfterStream] at hcontra
      · intro _
        refine ⟨⟨e :: es, by simp, ?_⟩, ?_⟩
        · simp [buildCaught, catchEvents]
        · have hshape : (buildCaught (e :: es) false msg actions).events
              = (e :: es) ++ ([REvent.lateSend 400 msg] ++ [REvent.endR]) := by
            simp [buildCaught, catchEvents]
          rw [hshape]
          cases e with
          | sendBody s b => exact hss
          | lateSend s b => rfl
          | write f => rfl
          | endR => rfl

/-- C7 amended: a fault raised before any response bytes have been sent
yields a single 400 response whose body is the fault message; a fault raised
after streaming has begun is NOT appended to the stream as an isError
frame — the handler re-invokes res.status(400).send, which cannot change the
already transmitted 200 status line and adds no protocol frame, and the
stream is closed with only the ineffective late send after the already
streamed prefix. -/
theorem runBuild_error_reporting (q : BuildQuery) (auth : Option String)
    (cfg : BuildCfg) (o : BuildOracle) :
    ∀ m : String, (runBuild q auth cfg o).caughtError = some m →
      ((runBuild q auth cfg o).errorAfterStream = some false →
         (runBuild q auth cfg o).events
           = [REvent.sendBody 400 m, REvent.endR]) ∧
      ((runBuild q auth cfg o).errorAfterStream = some true →
         (∃ pre, pre ≠ [] ∧
            (runBuild q auth cfg o).events
              = pre ++ [REvent.lateSend 400 m, REvent.endR]) ∧
         sentStatus (runBuild q auth cfg o).events = 200) := by
  simp only [runBuild]
  repeat' split
  all_goals intro m hc
  all_goals try simp [buildDone] at hc
  all_goals (simp only [buildCaught, Option.some.injEq] at hc
             subst hc
             apply buildCaught_shape)
  all_goals try rfl
  all_goals try exact sentStatus_streamFrames o
  all_goals try exact sentStatus_append _ _ (sentStatus_streamFrames o) (sentStatus_spin _ _ _)
  all_goals exact sentStatus_append _ _ (sentStatus_append _ _ (sentStatus_streamFrames o) (sentStatus_spin _ _ _)) (sentStatus_spin _ _ _)

/-- Concrete build request used to settle C7: a non-headless request whose
build prints one harmless line and exits without the success marker. -/
def c7Query : BuildQuery :=
  { slug := some "app", dockerfilePath := none, nocache := none,
    headless := some "false", isdraft := none, emulated := none }

def c7Cfg : BuildCfg :=
  { dockerHostAmd64 := "tcp://amd", dockerHostArm64 := "" }

def c7Oracle : BuildOracle :=
  { arch := "amd64", stdoutChunks := ["hello\n"], stderrChunks := [],
    exitCode := 0, oldImages := [], newImages := [], deltaFault := none,
    deltaTicks := 0, finalizeTicks := 0, finalizeExit := 0 }

def isErrorTrueWrite : REvent → Bool
  | REvent.write f => f.isError == some true
  | _ => false

/-- C7 counterexample: in this concrete run one frame has already been
streamed when the Build error fault is raised, so by the claim the fault
should be appended to the stream as a message with isError true; instead the
full event log shows only the streamed frame, the ineffective late 400 send
carrying the message outside any frame, and the close — no isError frame is
ever written. -/
theorem runBuild_fault_not_framed :
    (runBuild c7Query (some "tok") c7Cfg c7Oracle).caughtError
        = some "Build error" ∧
    (runBuild c7Query (some "tok") c7Cfg c7Oracle).errorAfterStream = some true ∧
    (runBuild c7Query (some "tok") c7Cfg c7Oracle).events
        = [REvent.write (transformFrame "hello\n"),
           REvent.lateSend 400 "Build error", REvent.endR] ∧
    (runBuild c7Query (some "tok") c7Cfg c7Oracle).events.filter isErrorTrueWrite
        = [] :=
  ⟨rfl, rfl, rfl, rfl⟩

/-- Witness for the amended C7: the error-reporting theorem applied to the
concrete faulting run. -/
theorem runBuild_error_reporting_witness :
    (∃ pre, pre ≠ [] ∧
       (runBuild c7Query (some "tok") c7Cfg c7Oracle).events
         = pre ++ [REvent.lateSend 400 "Build error", REvent.endR]) ∧
    sentStatus (runBuild c7Query (some "tok") c7Cfg c7Oracle).events = 200 :=
  ((runBuild_error_reporting c7Query (some "tok") c7Cfg c7Oracle
      "Build error" rfl).2) rfl

/-- Concrete headless build request used to settle C8: the build succeeds
and prints the success marker, there are no deltas to generate and no
finalize was requested. -/
def c8Query : BuildQuery :=
  { slug := some "app", dockerfilePath := none, nocache := none,
    headless := some "true", isdraft := none, emulated := none }

def c8Cfg : BuildCfg :=
  { dockerHostAmd64 := "tcp://amd", dockerHostArm64 := "" }

def c8Oracle : BuildOracle :=
  { arch := "amd64", stdoutChunks := ["[Success] Release: abc123\n"],
    stderrChunks := [], exitCode := 0, oldImages := [], newImages := [],
    deltaFault := none, deltaTicks := 0, finalizeTicks := 0, finalizeExit := 0 }

/-- C8: the code contradicts the specification here.  In a headless run the
handler answers Build started, which ends the response, and then the delta
phase still calls runSpinner on the response object, whose cleanup
unconditionally writes the clear frame and the final spinner message — the
event log of this successful headless run contains two writes after the
completed Build started response, where the specification requires no
further response writes. -/
theorem runBuild_headless_writes_after_response :
    (runBuild c8Query (some "tok") c8Cfg c8Oracle).events
        = [REvent.sendBody 200 "Build started",
           REvent.write clearFrame,
           REvent.write (spinDoneFrame deltaSpinnerMsg),
           REvent.endR] ∧
    (runBuild c8Query (some "tok") c8Cfg c8Oracle).caughtError = none :=
  ⟨rfl, rfl⟩

end OpenBalenaBuilder
